import Mathlib

/-!
# Verification of the nwin window-state registry and event-translation layer

Shallow embedding of the nwin repository (src/lib.rs, src/platform/win32.rs).
The win32 backend is the authoritative compiled implementation: platform.rs
mounts `win32` on windows and `x11` on unix, while `xlib.rs` is not in the
module tree at all.

Modelling conventions:
* Machine integers become `Nat` (bit patterns: styles, virtual keys, wparam,
  lparam, modifier bitsets, button bitsets) or `Int` (Rust `i32` geometry).
* The process-wide `WINDOW_INFO` map (`HashMap<isize, WindowInfo>` behind a
  lock) becomes an association list `Registry` from window handle to
  `WindowInfo`; `entry().and_modify()`, `or_insert`, `get`, `remove` are
  modelled by the corresponding list operations.
* Calls into the OS (ShowWindow, SetWindowPos, SetWindowLongPtrW, ...) are
  recorded in a trace and, where the code later reads them back
  (GetWindowLongPtrW), mirrored in a native per-window style/geometry map.
* Layout-dependent OS primitives (MapVirtualKeyW, ToUnicode) are parameters
  collected in `OsApi`.
* Rust panics (`unwrap` on `None`, `todo!()`, `panic!()`) become the
  `Except RustPanic` error monad.
* `f32`/`f64` event payloads (wheel delta, cursor position) are carried as the
  integer values the code converts from (`i16` high word, pixel coordinates);
  no claim depends on the floating-point representation.
-/

namespace Nwin

/-- `WindowSizeState` from src/lib.rs. -/
inductive WindowSizeState
  | Minimized
  | Maximized
  | Other
deriving DecidableEq, Repr

/-- `FullscreenType` from src/lib.rs. -/
inductive FullscreenType
  | Exclusive
  | Borderless
  | NotFullscreen
deriving DecidableEq, Repr

/-- `Theme` from src/lib.rs. -/
inductive Theme
  | Light
  | Dark
deriving DecidableEq, Repr

/-- `KeyboardScancode` from src/lib.rs. -/
inductive KeyboardScancode
  | Esc | F1 | F2 | F3 | F4 | F5 | F6 | F7 | F8 | F9 | F10 | F11 | F12
  | PrtScSysRq | ScrLk | PauseBreak
  | Tilde | Key1 | Key2 | Key3 | Key4 | Key5 | Key6 | Key7 | Key8 | Key9 | Key0
  | Hyphen | Equals | Backspace | Insert | Home | PgUp
  | NumLk | NumSlash | NumAsterisk | NumHyphen
  | Tab | Q | W | E | R | T | Y | U | I | O | P
  | OpenBracket | CloseBracket | BackSlash | Del | End | PgDn
  | Num7 | Num8 | Num9 | NumPlus
  | CapsLk | A | S | D | F | G | H | J | K | L
  | Semicolon | Apostrophe | Enter | Num4 | Num5 | Num6
  | LShift | Z | X | C | V | B | N | M | Comma | Period | ForwardSlash
  | RShift | ArrowUp | Num1 | Num2 | Num3 | NumEnter
  | LCtrl | LSys | LAlt | Space | RAlt | RSys | Fn | RCtrl
  | ArrowLeft | ArrowDown | ArrowRight | Num0 | NumPeriod
deriving DecidableEq, Repr

/-- `MouseScancode` from src/lib.rs (`ButtonN(u8)` carries the raw byte). -/
inductive MouseScancode
  | LClick
  | RClick
  | MClick
  | Button4
  | Button5
  | ButtonN (n : Nat)
deriving DecidableEq, Repr

/- The `Modifiers` bitflags (u16) from src/lib.rs, as named bit values. -/
namespace Modifiers

def LCTRL : Nat := 0x0001
def LSYS : Nat := 0x0002
def LALT : Nat := 0x0004
def LSHIFT : Nat := 0x0008
def RSHIFT : Nat := 0x0010
def RALT : Nat := 0x0020
def RSYS : Nat := 0x0040
def RCTRL : Nat := 0x0080
def CAPSLOCK : Nat := 0x0100
def NUMLOCK : Nat := 0x0200
def SCRLOCK : Nat := 0x0400

/-- Union of all defined `Modifiers` bits (what `bitflags` calls `all()`). -/
def allBits : Nat := 0x07FF

/-- `bitflags` `contains`: `self.bits() & other.bits() == other.bits()`. -/
def mcontains (m k : Nat) : Bool := m &&& k = k

/-- `bitflags` complement `!k`: complement truncated to the defined bits. -/
def mNot (k : Nat) : Nat := allBits ^^^ (k &&& allBits)

end Modifiers

/- The `WindowButtons` bitflags (u8) from src/lib.rs.
`CLOSE` is declared with value `0x00`. -/
namespace WindowButtons

def CLOSE : Nat := 0x00
def MINIMIZE : Nat := 0x01
def MAXIMIZE : Nat := 0x02

/-- `bitflags` `all()`: union of the declared bits. -/
def allButtons : Nat := CLOSE ||| MINIMIZE ||| MAXIMIZE

/-- `bitflags` `contains`. -/
def bcontains (b f : Nat) : Bool := b &&& f = f

end WindowButtons

/-- `WindowEvent` from src/lib.rs.  Payload conventions: `Moved`/`Resized`
carry the `u32` values the decoder sends; `MouseWheelScroll` carries the `i16`
wheel delta the code converts to `f32`; `CursorMoved` carries the integer pixel
coordinates converted to `f64`; `ModifiersChanged` carries the `Modifiers`
bitset as `Nat`. -/
inductive WindowEvent
  | Created
  | Resized (width height : Nat)
  | Moved (x y : Nat)
  | CloseRequested
  | Destroyed
  | Focused (b : Bool)
  | ThemeChanged (t : Theme)
  | KeyDown (logical : KeyboardScancode) (physical : Option KeyboardScancode)
      (character : Option Char) (unshifted : Option Char)
  | KeyUp (logical : KeyboardScancode) (physical : Option KeyboardScancode)
  | CursorMoved (x y : Int)
  | MouseButtonDown (b : MouseScancode)
  | MouseButtonUp (b : MouseScancode)
  | MouseWheelScroll (delta : Int)
  | ModifiersChanged (m : Nat)
  | UnrecoverableError
deriving DecidableEq, Repr

/-- Win32 window-style bits used by the code (values from the windows crate). -/
def WS_OVERLAPPEDWINDOW : Nat := 0x00CF0000
def WS_CLIPSIBLINGS : Nat := 0x04000000
def WS_VISIBLE : Nat := 0x10000000
def WS_POPUP : Nat := 0x80000000
def WS_MINIMIZEBOX : Nat := 0x00020000
def WS_MAXIMIZEBOX : Nat := 0x00010000
def WS_SIZEBOX : Nat := 0x00040000

/-- `WINDOW_STYLE.contains` in the windows crate: `self.0 & other.0 == other.0`. -/
def styleContains (s f : Nat) : Bool := s &&& f = f

/-- Win32 numeric constants used by the decoder (values from the windows crate). -/
def SIZE_RESTORED : Nat := 0
def SIZE_MINIMIZED : Nat := 1
def SIZE_MAXIMIZED : Nat := 2
def SIZE_MAXSHOW : Nat := 3
def SIZE_MAXHIDE : Nat := 4
def WA_INACTIVE : Nat := 0
def WA_ACTIVE : Nat := 1
def WA_CLICKACTIVE : Nat := 2
def SW_HIDE : Nat := 0
def SW_NORMAL : Nat := 1
def SW_MAXIMIZE : Nat := 3
def SW_MINIMIZE : Nat := 6
def SC_MAXIMIZE : Nat := 0xF030
def SC_NEXTWINDOW : Nat := 0xF040
def SC_RESTORE : Nat := 0xF120
def VK_TAB : Nat := 0x09
def VK_RETURN : Nat := 0x0D
def VK_SHIFT : Nat := 0x10
def VK_CONTROL : Nat := 0x11
def VK_MENU : Nat := 0x12
def VK_CAPITAL : Nat := 0x14
def VK_LWIN : Nat := 0x5B
def VK_RWIN : Nat := 0x5C
def VK_NUMLOCK : Nat := 0x90
def VK_LSHIFT : Nat := 0xA0
def VK_RSHIFT : Nat := 0xA1
def VK_LCONTROL : Nat := 0xA2
def VK_RCONTROL : Nat := 0xA3
def VK_LMENU : Nat := 0xA4
def VK_RMENU : Nat := 0xA5

/-- The per-window mutable state `WindowInfo` from src/platform/win32.rs
(the fields the state machine and the decoders read or write; OS resource
handles such as icons, cursor and brush are out of scope).  `senderBound`
models whether this window's `EventSender` has been bound to the consumer's
`EventReceiver` (`send` is a silent no-op while unbound). -/
structure WindowInfo where
  visible : Bool
  x : Int
  y : Int
  width : Int
  height : Int
  minWidth : Int
  minHeight : Int
  maxWidth : Int
  maxHeight : Int
  style : Nat
  title : String
  noClose : Bool
  focused : Bool
  resizeable : Bool
  theme : Theme
  hasFrame : Bool
  fullscreen : FullscreenType
  nonFullscreenStyle : Nat
  sizeState : WindowSizeState
  enabledButtons : Nat
  modifiers : Nat
  senderBound : Bool
deriving DecidableEq, Repr

/-- `CW_USEDEFAULT` (0x80000000u32 reinterpreted as i32). -/
def CW_USEDEFAULT : Int := -2147483648

/-- `impl Default for WindowInfo` from src/platform/win32.rs; the max size
bounds come from `GetSystemMetrics(SM_CXSCREEN/SM_CYSCREEN)`. -/
def defaultWindowInfo (screenW screenH : Int) : WindowInfo where
  visible := false
  x := CW_USEDEFAULT
  y := CW_USEDEFAULT
  width := CW_USEDEFAULT
  height := CW_USEDEFAULT
  minWidth := 20
  minHeight := 20
  maxWidth := screenW
  maxHeight := screenH
  style := WS_OVERLAPPEDWINDOW ||| WS_CLIPSIBLINGS
  title := "nwin window"
  noClose := false
  focused := false
  resizeable := true
  theme := Theme.Light
  hasFrame := false
  fullscreen := FullscreenType.NotFullscreen
  nonFullscreenStyle := WS_OVERLAPPEDWINDOW ||| WS_CLIPSIBLINGS
  sizeState := WindowSizeState.Other
  enabledButtons := WindowButtons.allButtons
  modifiers := 0
  senderBound := false

/-- The process-wide `WINDOW_INFO` registry: `HashMap<isize, WindowInfo>`
modelled as an association list from window handle to state. -/
abbrev Registry := List (Nat × WindowInfo)

namespace Registry

/-- `HashMap::get`. -/
def lookup : Registry → Nat → Option WindowInfo
  | [], _ => none
  | (k, v) :: r, h => if k = h then some v else lookup r h

/-- Update the value stored at an existing key (the effect of
`entry(h).and_modify(f)` on the map when the entry is occupied). -/
def setEntry : Registry → Nat → WindowInfo → Registry
  | [], _, _ => []
  | (k, v) :: r, h, v' => if k = h then (k, v') :: r else (k, v) :: setEntry r h v'

/-- `HashMap::remove`. -/
def remove (r : Registry) (h : Nat) : Registry :=
  r.filter (fun p => p.1 ≠ h)

/-- `entry(h).or_insert(v)`: insert only when absent. -/
def orInsert (r : Registry) (h : Nat) (v : WindowInfo) : Registry :=
  if (lookup r h).isSome then r else (h, v) :: r

end Registry

/-- A call issued to the native OS layer (recorded, with its arguments, in the
order the code issues it). -/
inductive NativeCall
  | showWindow (cmd : Nat)
  | setWindowPos (x y w h : Int)
  | setWindowLongPtrStyle (style : Nat)
  | sendSysCommand (cmd : Nat)
  | destroyWindow
  | postMessage
  | defWindowProc
deriving DecidableEq, Repr

/-- The native side of one window: the style word the OS holds (readable back
through `GetWindowLongPtrW(GWL_STYLE)`) and the geometry last given to
`SetWindowPos`. -/
structure NativeWindow where
  style : Nat
  x : Int
  y : Int
  width : Int
  height : Int
deriving DecidableEq, Repr

/-- Whole-system state: the registry, the consumer event queue (the
`EventReceiver`'s `VecDeque`), the native window map, the trace of native
calls, and the screen metrics `GetSystemMetrics` reports. -/
structure SysState where
  registry : Registry
  queue : List (Nat × WindowEvent)
  native : List (Nat × NativeWindow)
  trace : List NativeCall
  screenW : Int
  screenH : Int
deriving DecidableEq, Repr

namespace SysState

def nativeOf (st : SysState) (h : Nat) : NativeWindow :=
  match st.native.find? (fun p => p.1 = h) with
  | some p => p.2
  | none => ⟨0, 0, 0, 0, 0⟩

def setNative (st : SysState) (h : Nat) (nw : NativeWindow) : SysState :=
  { st with native := (h, nw) :: st.native.filter (fun p => p.1 ≠ h) }

def addTrace (st : SysState) (c : NativeCall) : SysState :=
  { st with trace := st.trace ++ [c] }

/-- `SetWindowLongPtrW(hwnd, GWL_STYLE, s)`. -/
def setWindowLongPtrStyle (st : SysState) (h : Nat) (s : Nat) : SysState :=
  let st := st.addTrace (NativeCall.setWindowLongPtrStyle s)
  st.setNative h { st.nativeOf h with style := s }

/-- `SetWindowPos(hwnd, _, x, y, w, h, flags)`. -/
def setWindowPos (st : SysState) (hwnd : Nat) (x y w h : Int) : SysState :=
  let st := st.addTrace (NativeCall.setWindowPos x y w h)
  st.setNative hwnd { st.nativeOf hwnd with x := x, y := y, width := w, height := h }

/-- `EventSender::send(id, ev)`: appends to the receiver's queue when the
sender is bound, silently drops the event otherwise. -/
def send (st : SysState) (hwnd : Nat) (bound : Bool) (ev : WindowEvent) : SysState :=
  if bound then { st with queue := st.queue ++ [(hwnd, ev)] } else st

def setInfo (st : SysState) (h : Nat) (v : WindowInfo) : SysState :=
  { st with registry := st.registry.setEntry h v }

end SysState

/-- The ways the Rust code can panic: `Option::unwrap` on `None`, a `todo!()`
placeholder, or an explicit `panic!()`. -/
inductive RustPanic
  | unwrapNone
  | todoBranch
  | panicked
deriving DecidableEq, Repr

/-- `TryFrom<VIRTUAL_KEY> for KeyboardScancode` from src/platform/win32.rs
(the layout-dependent VK table), with the windows-crate VK values inlined. -/
def vkToKeyboardScancode : Nat → Option KeyboardScancode
  | 0x08 => some .Backspace
  | 0x09 => some .Tab
  | 0x0D => some .Enter
  | 0x13 => some .PauseBreak
  | 0x1B => some .Esc
  | 0x20 => some .Space
  | 0x21 => some .PgUp
  | 0x22 => some .PgDn
  | 0x23 => some .End
  | 0x24 => some .Home
  | 0x25 => some .ArrowLeft
  | 0x26 => some .ArrowUp
  | 0x28 => some .ArrowDown
  | 0x27 => some .ArrowRight
  | 0x2C => some .PrtScSysRq
  | 0x2D => some .Insert
  | 0x2E => some .Del
  | 0x30 => some .Key0
  | 0x31 => some .Key1
  | 0x32 => some .Key2
  | 0x33 => some .Key3
  | 0x34 => some .Key4
  | 0x35 => some .Key5
  | 0x36 => some .Key6
  | 0x37 => some .Key7
  | 0x38 => some .Key8
  | 0x39 => some .Key9
  | 0x41 => some .A
  | 0x42 => some .B
  | 0x43 => some .C
  | 0x44 => some .D
  | 0x45 => some .E
  | 0x46 => some .F
  | 0x47 => some .G
  | 0x48 => some .H
  | 0x49 => some .I
  | 0x4A => some .J
  | 0x4B => some .K
  | 0x4C => some .L
  | 0x4D => some .M
  | 0x4E => some .N
  | 0x4F => some .O
  | 0x50 => some .P
  | 0x51 => some .Q
  | 0x52 => some .R
  | 0x53 => some .S
  | 0x54 => some .T
  | 0x55 => some .U
  | 0x56 => some .V
  | 0x57 => some .W
  | 0x58 => some .X
  | 0x59 => some .Y
  | 0x5A => some .Z
  | 0x60 => some .Num0
  | 0x61 => some .Num1
  | 0x62 => some .Num2
  | 0x63 => some .Num3
  | 0x64 => some .Num4
  | 0x65 => some .Num5
  | 0x66 => some .Num6
  | 0x67 => some .Num7
  | 0x68 => some .Num8
  | 0x69 => some .Num9
  | 0x6A => some .NumAsterisk
  | 0x6B => some .NumPlus
  | 0x6C => some .NumPeriod
  | 0x6D => some .NumHyphen
  | 0x6E => some .NumPeriod
  | 0x6F => some .NumSlash
  | 0x70 => some .F1
  | 0x71 => some .F2
  | 0x72 => some .F3
  | 0x73 => some .F4
  | 0x74 => some .F5
  | 0x75 => some .F6
  | 0x76 => some .F7
  | 0x77 => some .F8
  | 0x78 => some .F9
  | 0x79 => some .F10
  | 0x7A => some .F11
  | 0x7B => some .F12
  | 0xBA => some .Semicolon
  | 0xBB => some .Equals
  | 0xBC => some .Comma
  | 0xBD => some .Hyphen
  | 0xBE => some .Period
  | 0xBF => some .ForwardSlash
  | 0xC0 => some .Tilde
  | 0xDB => some .OpenBracket
  | 0xDC => some .BackSlash
  | 0xDD => some .CloseBracket
  | 0xDE => some .Apostrophe
  | _ => none

/-- `TryFrom<VIRTUAL_KEY> for MouseScancode` from src/platform/win32.rs. -/
def vkToMouseScancode : Nat → Option MouseScancode
  | 0x01 => some .LClick
  | 0x02 => some .RClick
  | 0x04 => some .MClick
  | 0x05 => some .Button4
  | 0x06 => some .Button5
  | _ => none

/-- `TryFrom<OemScancode> for KeyboardScancode` from src/platform/win32.rs:
the layout-independent physical-scancode table (extended keys carry 0xE0 in
the high byte). -/
def oemToKeyboardScancode : Nat → Option KeyboardScancode
  | 0x001E => some .A
  | 0x0030 => some .B
  | 0x002E => some .C
  | 0x0020 => some .D
  | 0x0012 => some .E
  | 0x0021 => some .F
  | 0x0022 => some .G
  | 0x0023 => some .H
  | 0x0017 => some .I
  | 0x0024 => some .J
  | 0x0025 => some .K
  | 0x0026 => some .L
  | 0x0032 => some .M
  | 0x0031 => some .N
  | 0x0018 => some .O
  | 0x0019 => some .P
  | 0x0010 => some .Q
  | 0x0013 => some .R
  | 0x001F => some .S
  | 0x0014 => some .T
  | 0x0016 => some .U
  | 0x002F => some .V
  | 0x0011 => some .W
  | 0x002D => some .X
  | 0x0015 => some .Y
  | 0x002C => some .Z
  | 0x0002 => some .Key1
  | 0x0003 => some .Key2
  | 0x0004 => some .Key3
  | 0x0005 => some .Key4
  | 0x0006 => some .Key5
  | 0x0007 => some .Key6
  | 0x0008 => some .Key7
  | 0x0009 => some .Key8
  | 0x000A => some .Key9
  | 0x000B => some .Key0
  | 0x001C => some .Enter
  | 0x0001 => some .Esc
  | 0x000E => some .Backspace
  | 0x000F => some .Tab
  | 0x0039 => some .Space
  | 0x000C => some .Hyphen
  | 0x000D => some .Equals
  | 0x001A => some .OpenBracket
  | 0x001B => some .CloseBracket
  | 0x002B => some .BackSlash
  | 0x0027 => some .Semicolon
  | 0x0028 => some .Apostrophe
  | 0x0029 => some .Tilde
  | 0x0033 => some .Comma
  | 0x0034 => some .Period
  | 0x0035 => some .ForwardSlash
  | 0x003A => some .CapsLk
  | 0x003B => some .F1
  | 0x003C => some .F2
  | 0x003D => some .F3
  | 0x003E => some .F4
  | 0x003F => some .F5
  | 0x0040 => some .F6
  | 0x0041 => some .F7
  | 0x0042 => some .F8
  | 0x0043 => some .F9
  | 0x0044 => some .F10
  | 0x0057 => some .F11
  | 0x0058 => some .F12
  | 0x0046 => some .ScrLk
  | 0xE052 => some .Insert
  | 0xE047 => some .Home
  | 0xE049 => some .PgUp
  | 0xE053 => some .Del
  | 0xE04F => some .End
  | 0xE051 => some .PgDn
  | 0xE04D => some .ArrowRight
  | 0xE04B => some .ArrowLeft
  | 0xE050 => some .ArrowDown
  | 0xE048 => some .ArrowUp
  | 0xE035 => some .NumSlash
  | 0x0037 => some .NumAsterisk
  | 0x004A => some .NumHyphen
  | 0x004E => some .NumPlus
  | 0xE01C => some .NumEnter
  | 0x0053 => some .NumPeriod
  | 0x004F => some .Num1
  | 0x0050 => some .Num2
  | 0x0051 => some .Num3
  | 0x004B => some .Num4
  | 0x004C => some .Num5
  | 0x004D => some .Num6
  | 0x0047 => some .Num7
  | 0x0048 => some .Num8
  | 0x0049 => some .Num9
  | 0x0052 => some .Num0
  | 0x001D => some .LCtrl
  | 0x002A => some .LShift
  | 0x0038 => some .LAlt
  | 0xE05B => some .LSys
  | 0xE01D => some .RCtrl
  | 0x0036 => some .RShift
  | 0xE038 => some .RAlt
  | 0xE05C => some .RSys
  | _ => none

/-- The layout-dependent OS primitives the key decoder calls
(`MapVirtualKeyW` in its two modes and `ToUnicode`); external collaborators
per the spec, so the decoder is parametrised over them.  `toUnicode` returns
the `i32` result count and the single `u16` code unit written to the buffer;
the `Bool` argument abstracts the 256-entry key-state array, of which the code
only ever sets the shift entry. -/
structure OsApi where
  mapVscToVkEx : Nat → Nat
  mapVkToChar : Nat → Nat
  toUnicode : Nat → Nat → Bool → Int × Nat

/-- `ModifiersExt::try_from_vk` without the generic-key remapping step:
the match on the already-resolved virtual key. -/
def vkExToModifier (vk : Nat) : Option Nat :=
  if vk = VK_LSHIFT then some Modifiers.LSHIFT
  else if vk = VK_RSHIFT then some Modifiers.RSHIFT
  else if vk = VK_LMENU then some Modifiers.LALT
  else if vk = VK_RMENU then some Modifiers.RALT
  else if vk = VK_LCONTROL then some Modifiers.LCTRL
  else if vk = VK_RCONTROL then some Modifiers.RCTRL
  else if vk = VK_LWIN then some Modifiers.LSYS
  else if vk = VK_RWIN then some Modifiers.RSYS
  else if vk = VK_CAPITAL then some Modifiers.CAPSLOCK
  else if vk = VK_NUMLOCK then some Modifiers.NUMLOCK
  else none

/-- `Modifiers::try_from_vk(vk, scancode)` from src/platform/win32.rs:
ambiguous generic shift/alt/ctrl keys are resolved to a sided key through
`MapVirtualKeyW(scancode, MAPVK_VSC_TO_VK_EX)`. -/
def tryFromVk (api : OsApi) (vk scancode : Nat) : Option Nat :=
  let vk := if vk = VK_SHIFT ∨ vk = VK_MENU ∨ vk = VK_CONTROL then
      api.mapVscToVkEx scancode
    else vk
  vkExToModifier vk

/-- `KeyState` from src/platform/win32.rs. -/
inductive KeyState
  | Up
  | Down
deriving DecidableEq, Repr

def KeyState.fromBool (b : Bool) : KeyState := if b then .Down else .Up

/-- `KeyPressInfo` from src/platform/win32.rs: the decoded key lparam. -/
structure KeyPressInfo where
  repeatCount : Nat
  scancode : Nat
  contextCode : Bool
  previousState : KeyState
deriving DecidableEq, Repr

/-- `KeyPressInfo::from_isize`: the raw scancode is bits 16..23, the extended
flag (bit 24) folds in as the 0xE000 prefix. -/
def KeyPressInfo.fromNat (i : Nat) : KeyPressInfo :=
  let repeatCount := i &&& 0x0000FFFF
  let scancode := (i &&& 0x00FF0000) >>> 16
  let extended := i &&& 0x01000000 ≠ 0
  let scancode := if extended then scancode ||| 0xE000 else scancode
  let contextCode := i &&& 0x10000000 ≠ 0
  let previousState := KeyState.fromBool (i &&& 0x40000000 ≠ 0)
  ⟨repeatCount, scancode, contextCode, previousState⟩

/-- `std::char::decode_utf16` applied to a single `u16`: a lone surrogate is
an error (dropped by `.flatten()`), anything else is the scalar value. -/
def decodeUtf16One (u : Nat) : Option Char :=
  let u := u % 0x10000
  if 0xD800 ≤ u ∧ u ≤ 0xDFFF then none else some (Char.ofNat u)

/-- The `WM_KEYDOWN | WM_SYSKEYDOWN | WM_KEYUP | WM_SYSKEYUP` arm of
`main_wnd_proc`: system Alt+Tab / Alt+Enter interception, the keyboard-event
branch, the mouse-button branch, then the modifier branch, in source order. -/
def handleKey (api : OsApi) (sys down : Bool) (vk lparam hwnd : Nat)
    (st : SysState) : Except RustPanic SysState :=
  let kpi := KeyPressInfo.fromNat lparam
  let physicalScancode := oemToKeyboardScancode kpi.scancode
  if sys ∧ (vk = VK_TAB ∨ vk = VK_RETURN) then
    match st.registry.lookup hwnd with
    | none => .error .unwrapNone
    | some info =>
      let wp := if vk = VK_RETURN then
          if info.sizeState = WindowSizeState.Maximized then SC_RESTORE else SC_MAXIMIZE
        else SC_NEXTWINDOW
      .ok (st.addTrace (NativeCall.sendSysCommand wp))
  else
    let st :=
      match vkToKeyboardScancode vk, st.registry.lookup hwnd with
      | some k, some info =>
        if down then
          let c := api.mapVkToChar vk
          let unshifted := decodeUtf16One c
          let b := Modifiers.mcontains info.modifiers Modifiers.LSHIFT
            || Modifiers.mcontains info.modifiers Modifiers.RSHIFT
          let b := if Modifiers.mcontains info.modifiers Modifiers.CAPSLOCK then !b else b
          let res := api.toUnicode (vk &&& 0xFF) (vk &&& 0xFF) b
          let character := if res.1 ≠ 1 then none else decodeUtf16One res.2
          st.send hwnd info.senderBound
            (WindowEvent.KeyDown k physicalScancode character unshifted)
        else
          st.send hwnd info.senderBound (WindowEvent.KeyUp k physicalScancode)
      | _, _ => st
    let st :=
      match vkToMouseScancode vk, st.registry.lookup hwnd with
      | some m, some info =>
        st.send hwnd info.senderBound
          (if down then WindowEvent.MouseButtonDown m else WindowEvent.MouseButtonUp m)
      | _, _ => st
    let st :=
      match tryFromVk api vk kpi.scancode with
      | some k =>
        match st.registry.lookup hwnd with
        | some info =>
          let m :=
            if k = Modifiers.CAPSLOCK ∨ k = Modifiers.NUMLOCK then
              if down then info.modifiers ^^^ k else info.modifiers
            else if down then info.modifiers ||| k
            else info.modifiers &&& Modifiers.mNot k
          let info' := { info with modifiers := m }
          let st := st.setInfo hwnd info'
          st.send hwnd info'.senderBound (WindowEvent.ModifiersChanged m)
        | none =>
          { st with registry := (hwnd, defaultWindowInfo st.screenW st.screenH) :: st.registry }
      | none => st
    .ok st

/-- Interpret a signed 16-bit bit pattern (`as i16`). -/
def toI16 (n : Nat) : Int :=
  let n := n % 0x10000
  if n < 0x8000 then (n : Int) else (n : Int) - 0x10000

/-- The native notifications `main_wnd_proc` handles, with their decoded
parameters.  `wmSetText` carries the result of the UTF-16 parse of the text
pointer (`none` when `String::from_utf16` fails); `wmOther` stands for every
message that falls to the `DefWindowProcW` default arm. -/
inductive Msg
  | wmCreate
  | wmClose
  | wmDestroy
  | wmMove (lparam : Nat)
  | wmSize (wparam lparam : Nat)
  | wmActivate (wparam : Nat)
  | wmSetText (text : Option String)
  | wmDisplayChange
  | wmKey (sys down : Bool) (wparam lparam : Nat)
  | wmMouseWheel (wparam : Nat)
  | wmOther
deriving DecidableEq

/-- `main_wnd_proc` from src/platform/win32.rs: the native message decoder. -/
def mainWndProc (api : OsApi) (hwnd : Nat) (msg : Msg) (st : SysState) :
    Except RustPanic SysState :=
  match msg with
  | .wmCreate =>
    match st.registry.lookup hwnd with
    | some info => .ok (st.send hwnd info.senderBound WindowEvent.Created)
    | none =>
      -- or_insert: a fresh default entry whose sender is unbound, so the
      -- Created event it then sends is silently dropped
      .ok { st with registry := (hwnd, defaultWindowInfo st.screenW st.screenH) :: st.registry }
  | .wmClose =>
    let st :=
      match st.registry.lookup hwnd with
      | some info => st.send hwnd info.senderBound WindowEvent.CloseRequested
      | none =>
        { st with registry := (hwnd, defaultWindowInfo st.screenW st.screenH) :: st.registry }
    .ok (st.addTrace NativeCall.destroyWindow)
  | .wmDestroy =>
    let st := st.addTrace NativeCall.postMessage
    let st :=
      match st.registry.lookup hwnd with
      | some info => st.send hwnd info.senderBound WindowEvent.Destroyed
      | none =>
        { st with registry := (hwnd, defaultWindowInfo st.screenW st.screenH) :: st.registry }
    .ok { st with registry := st.registry.remove hwnd }
  | .wmMove lparam =>
    let x := lparam &&& 0xFFFF
    let y := (lparam >>> 16) &&& 0xFFFF
    match st.registry.lookup hwnd with
    | some info =>
      let info' := { info with x := (x : Int), y := (y : Int) }
      let st := st.setInfo hwnd info'
      .ok (st.send hwnd info'.senderBound (WindowEvent.Moved x y))
    | none =>
      .ok { st with registry := (hwnd, defaultWindowInfo st.screenW st.screenH) :: st.registry }
  | .wmSize wparam lparam =>
    let width := lparam &&& 0xFFFF
    let height := (lparam >>> 16) &&& 0xFFFF
    if wparam = SIZE_RESTORED then
      match st.registry.lookup hwnd with
      | some info =>
        let info' := { info with
          width := (width : Int), height := (height : Int),
          sizeState := WindowSizeState.Other }
        let st := st.setInfo hwnd info'
        .ok (st.send hwnd info'.senderBound (WindowEvent.Resized width height))
      | none => .ok st
    else if wparam = SIZE_MINIMIZED then
      match st.registry.lookup hwnd with
      | some info => .ok (st.setInfo hwnd { info with sizeState := WindowSizeState.Minimized })
      | none => .ok st
    else if wparam = SIZE_MAXIMIZED then
      match st.registry.lookup hwnd with
      | some info => .ok (st.setInfo hwnd { info with sizeState := WindowSizeState.Maximized })
      | none => .ok st
    else if wparam = SIZE_MAXSHOW ∨ wparam = SIZE_MAXHIDE then
      .error .todoBranch
    else .ok st
  | .wmActivate wparam =>
    if wparam = WA_ACTIVE ∨ wparam = WA_CLICKACTIVE ∨ wparam = WA_INACTIVE then
      let focused := wparam = WA_ACTIVE ∨ wparam = WA_CLICKACTIVE
      match st.registry.lookup hwnd with
      | some info =>
        let info' := { info with focused := focused }
        let st := st.setInfo hwnd info'
        .ok (st.send hwnd info'.senderBound (WindowEvent.Focused focused))
      | none => .ok st
    else .ok st
  | .wmSetText text =>
    let st :=
      match text, st.registry.lookup hwnd with
      | some s, some info => st.setInfo hwnd { info with title := s }
      | _, _ => st
    .ok (st.addTrace NativeCall.defWindowProc)
  | .wmDisplayChange => .error .todoBranch
  | .wmKey sys down wparam lparam => handleKey api sys down wparam lparam hwnd st
  | .wmMouseWheel wparam =>
    let delta := toI16 ((wparam &&& 0xFFFF0000) >>> 16)
    match st.registry.lookup hwnd with
    | some info => .ok (st.send hwnd info.senderBound (WindowEvent.MouseWheelScroll delta))
    | none => .ok st
  | .wmOther => .ok (st.addTrace NativeCall.defWindowProc)

/- The `WindowT` methods of `win32::Window` (src/platform/win32.rs), each a
function of the window handle over the system state.  Registry lookups that
the Rust code `unwrap()`s become `Except RustPanic`. -/
namespace Window

/-- `Window::focused`. -/
def focused (hwnd : Nat) (st : SysState) : Except RustPanic Bool :=
  match st.registry.lookup hwnd with
  | none => .error .unwrapNone
  | some v => .ok v.focused

/-- `Window::width`. -/
def width (hwnd : Nat) (st : SysState) : Except RustPanic Int :=
  match st.registry.lookup hwnd with
  | none => .error .unwrapNone
  | some v => .ok v.width

/-- `Window::title`. -/
def title (hwnd : Nat) (st : SysState) : Except RustPanic String :=
  match st.registry.lookup hwnd with
  | none => .error .unwrapNone
  | some v => .ok v.title

/-- `Window::fullscreen_type`. -/
def fullscreenType (hwnd : Nat) (st : SysState) : Except RustPanic FullscreenType :=
  match st.registry.lookup hwnd with
  | none => .error .unwrapNone
  | some v => .ok v.fullscreen

/-- `Window::enabled_buttons`. -/
def enabledButtons (hwnd : Nat) (st : SysState) : Except RustPanic Nat :=
  match st.registry.lookup hwnd with
  | none => .error .unwrapNone
  | some v => .ok v.enabledButtons

/-- `minimize_window` from src/platform/win32.rs (what `Window::minimize`
calls): native minimize only when not already minimized. -/
def minimizeWindow (hwnd : Nat) (st : SysState) : Except RustPanic SysState :=
  match st.registry.lookup hwnd with
  | none => .error .unwrapNone
  | some v =>
    if v.sizeState ≠ WindowSizeState.Minimized then
      .ok (st.addTrace (NativeCall.showWindow SW_MINIMIZE))
    else .ok st

/-- `maximize_window` from src/platform/win32.rs. -/
def maximizeWindow (hwnd : Nat) (st : SysState) : Except RustPanic SysState :=
  match st.registry.lookup hwnd with
  | none => .error .unwrapNone
  | some v =>
    if v.sizeState ≠ WindowSizeState.Maximized then
      .ok (st.addTrace (NativeCall.showWindow SW_MAXIMIZE))
    else .ok st

/-- `Window::normalize` from src/platform/win32.rs: repositions through
`SetWindowPos` to the stored geometry, but only when the window is NOT
minimized. -/
def normalize (hwnd : Nat) (st : SysState) : Except RustPanic SysState :=
  match st.registry.lookup hwnd with
  | none => .error .unwrapNone
  | some info =>
    if info.sizeState ≠ WindowSizeState.Minimized then
      .ok (st.setWindowPos hwnd info.x info.y info.width info.height)
    else .ok st

/-- `Window::set_fullscreen` from src/platform/win32.rs.  Early-returns when
the stored `fullscreen` field already equals the request; otherwise modifies
the entry.  Note the source never assigns `v.fullscreen`. -/
def setFullscreen (hwnd : Nat) (fs : FullscreenType) (st : SysState) :
    Except RustPanic SysState :=
  match st.registry.lookup hwnd with
  | none => .error .unwrapNone
  | some v0 =>
    if v0.fullscreen = fs then .ok st
    else
      if fs = FullscreenType.Borderless then
        -- v.non_fullscreen_style = GetWindowLongPtrW(hwnd, GWL_STYLE)
        let nfs := (st.nativeOf hwnd).style
        if styleContains nfs WS_POPUP then
          let style := WS_VISIBLE ||| WS_OVERLAPPEDWINDOW ||| WS_CLIPSIBLINGS
          let st := st.setWindowLongPtrStyle hwnd style
          let st := st.setInfo hwnd { v0 with nonFullscreenStyle := nfs, style := style }
          .ok (st.setWindowPos hwnd 0 0 600 400)
        else
          let w := st.screenW
          let h := st.screenH
          let style := WS_VISIBLE ||| WS_POPUP
          let st := st.setWindowLongPtrStyle hwnd style
          let st := st.setInfo hwnd { v0 with nonFullscreenStyle := nfs, style := style }
          .ok (st.setWindowPos hwnd 0 0 w h)
      else if fs = FullscreenType.Exclusive then .error .todoBranch
      else
        let st := st.setWindowLongPtrStyle hwnd v0.nonFullscreenStyle
        .ok (st.setWindowPos hwnd v0.x v0.y v0.width v0.height)

/-- `Window::set_enabled_buttons` from src/platform/win32.rs. -/
def setEnabledButtons (hwnd : Nat) (buttons : Nat) (st : SysState) :
    Except RustPanic SysState :=
  match st.registry.lookup hwnd with
  | none => .ok st
  | some v =>
    let style :=
      (if WindowButtons.bcontains buttons WindowButtons.MAXIMIZE then WS_MAXIMIZEBOX else 0)
      ||| (if WindowButtons.bcontains buttons WindowButtons.MINIMIZE then WS_MINIMIZEBOX else 0)
    let v1 := { v with enabledButtons := buttons, style := v.style &&& (0xFFFFFFFF ^^^ style) }
    let st := (st.setInfo hwnd v1).setWindowLongPtrStyle hwnd v1.style
    if v1.noClose = false ∧ WindowButtons.bcontains buttons WindowButtons.CLOSE then .ok st
    else .error .todoBranch

/-- `impl Drop for Window`: when the last `Arc<HWND>` reference dies, the
registry entry is removed. -/
def dropWindow (strongCount hwnd : Nat) (st : SysState) : SysState :=
  if strongCount ≤ 1 then { st with registry := st.registry.remove hwnd } else st

end Window

/- The event channel and poll loop from src/lib.rs. -/
namespace EventLoop

/-- `EventReceiver::recv`: push one event at the back of the shared queue. -/
def recv (q : List (Nat × WindowEvent)) (e : Nat × WindowEvent) :
    List (Nat × WindowEvent) :=
  q ++ [e]

/-- `EventLoop::next_event`: snapshot the queue; only when it is empty, pump
the native subsystem for every bound window (`pump` is the list of events
that pumping appends, in arrival order); then pop the front of the queue. -/
def nextEvent (q pump : List (Nat × WindowEvent)) :
    Option (Nat × WindowEvent) × List (Nat × WindowEvent) :=
  let q := if q.isEmpty then q ++ pump else q
  (q.head?, q.tail)

end EventLoop

/-- Observable part of a decoder/method result for one window: its registry
entry and the consumer queue. -/
def obs (hwnd : Nat) (r : Except RustPanic SysState) :
    Except RustPanic (Option WindowInfo × List (Nat × WindowEvent)) :=
  r.map (fun s => (s.registry.lookup hwnd, s.queue))

/-- Did the call return normally (no Rust panic)? -/
def okE (r : Except RustPanic SysState) : Bool :=
  match r with
  | .ok _ => true
  | .error _ => false

/-- A trivial instantiation of the layout-dependent OS primitives, used for
concrete evaluations. -/
def api0 : OsApi :=
  ⟨fun _ => 0, fun _ => 0, fun _ _ _ => (0, 0)⟩

/-- A concrete live window: bound sender, default chrome style, geometry
(100, 100, 800, 600). -/
def sampleInfo : WindowInfo :=
  { defaultWindowInfo 1920 1080 with
    visible := true, x := 100, y := 100, width := 800, height := 600,
    senderBound := true }

/-- A concrete system state holding `sampleInfo` as window 1, whose native
style/geometry agree with the registry. -/
def sampleState : SysState where
  registry := [(1, sampleInfo)]
  queue := []
  native := [(1, ⟨WS_OVERLAPPEDWINDOW ||| WS_CLIPSIBLINGS, 100, 100, 800, 600⟩)]
  trace := []
  screenW := 1920
  screenH := 1080

/-- `sampleState` with the window focused. -/
def focusedState : SysState :=
  { sampleState with registry := [(1, { sampleInfo with focused := true })] }

/-- `sampleState` with the window minimized. -/
def minimizedState : SysState :=
  { sampleState with
    registry := [(1, { sampleInfo with sizeState := WindowSizeState.Minimized })] }

/- Helper lemmas about the registry. -/

theorem Registry.lookup_setEntry_self (r : Registry) (h : Nat) (v v₀ : WindowInfo)
    (hl : r.lookup h = some v₀) : (r.setEntry h v).lookup h = some v := by
  induction r with
  | nil => simp [Registry.lookup] at hl
  | cons p r ih =>
    obtain ⟨k, w⟩ := p
    by_cases hk : k = h
    · subst hk
      simp [Registry.lookup, Registry.setEntry]
    · simp only [Registry.lookup, Registry.setEntry, if_neg hk] at hl ⊢
      exact ih hl

theorem SysState.queue_setInfo (st : SysState) (h : Nat) (v : WindowInfo) :
    (st.setInfo h v).queue = st.queue := rfl

theorem SysState.lookup_setInfo (st : SysState) (h : Nat) (v v₀ : WindowInfo)
    (hl : st.registry.lookup h = some v₀) :
    (st.setInfo h v).registry.lookup h = some v :=
  Registry.lookup_setEntry_self st.registry h v v₀ hl

theorem vkExToModifier_mem (vk k : Nat) (h : vkExToModifier vk = some k) :
    vk = VK_LSHIFT ∨ vk = VK_RSHIFT ∨ vk = VK_LMENU ∨ vk = VK_RMENU ∨
    vk = VK_LCONTROL ∨ vk = VK_RCONTROL ∨ vk = VK_LWIN ∨ vk = VK_RWIN ∨
    vk = VK_CAPITAL ∨ vk = VK_NUMLOCK := by
  unfold vkExToModifier at h
  split_ifs at h with h1 h2 h3 h4 h5 h6 h7 h8 h9 h10
  · exact Or.inl h1
  · exact Or.inr (Or.inl h2)
  · exact Or.inr (Or.inr (Or.inl h3))
  · exact Or.inr (Or.inr (Or.inr (Or.inl h4)))
  · exact Or.inr (Or.inr (Or.inr (Or.inr (Or.inl h5))))
  · exact Or.inr (Or.inr (Or.inr (Or.inr (Or.inr (Or.inl h6)))))
  · exact Or.inr (Or.inr (Or.inr (Or.inr (Or.inr (Or.inr (Or.inl h7))))))
  · exact Or.inr (Or.inr (Or.inr (Or.inr (Or.inr (Or.inr (Or.inr (Or.inl h8)))))))
  · exact Or.inr (Or.inr (Or.inr (Or.inr (Or.inr (Or.inr (Or.inr (Or.inr (Or.inl h9))))))))
  · exact Or.inr (Or.inr (Or.inr (Or.inr (Or.inr (Or.inr (Or.inr (Or.inr (Or.inr h10))))))))

/-- A virtual key that resolves to a modifier bit is not in the keyboard or
mouse VK tables and is not one of the intercepted system keys. -/
theorem modifier_vk_side_facts (vk k : Nat) (h : vkExToModifier vk = some k) :
    vkToKeyboardScancode vk = none ∧ vkToMouseScancode vk = none ∧
    vk ≠ VK_TAB ∧ vk ≠ VK_RETURN := by
  rcases vkExToModifier_mem vk k h with
    rfl | rfl | rfl | rfl | rfl | rfl | rfl | rfl | rfl | rfl <;>
    exact ⟨rfl, rfl, by decide, by decide⟩

theorem tryFromVk_cases (api : OsApi) (vk sc k : Nat)
    (h : tryFromVk api vk sc = some k) :
    (vk = VK_SHIFT ∨ vk = VK_MENU ∨ vk = VK_CONTROL) ∨ vkExToModifier vk = some k := by
  unfold tryFromVk at h
  split at h
  · left
    assumption
  · right
    exact h

theorem tryFromVk_side_facts (api : OsApi) (vk sc k : Nat)
    (h : tryFromVk api vk sc = some k) :
    vkToKeyboardScancode vk = none ∧ vkToMouseScancode vk = none ∧
    vk ≠ VK_TAB ∧ vk ≠ VK_RETURN := by
  rcases tryFromVk_cases api vk sc k h with (rfl | rfl | rfl) | h2
  · exact ⟨rfl, rfl, by decide, by decide⟩
  · exact ⟨rfl, rfl, by decide, by decide⟩
  · exact ⟨rfl, rfl, by decide, by decide⟩
  · exact modifier_vk_side_facts vk k h2

/-- C6: per key notification whose virtual key resolves to a modifier bit
`k`: lock keys (Caps Lock, Num Lock) XOR the bit only on key-down and are
ignored on key-up; all other modifier keys OR the bit in on down and AND it
out on up; a `ModifiersChanged` event carrying the updated bitset is the (one)
event emitted, after the store is mutated; and consequently two Caps Lock
presses restore the bitset and releasing Shift clears its bit regardless of
toggle state. -/
theorem c6_modifier_semantics (api : OsApi) (sys down : Bool)
    (vk lparam hwnd k : Nat) (st : SysState) (info : WindowInfo)
    (hl : st.registry.lookup hwnd = some info) (hb : info.senderBound = true)
    (hk : tryFromVk api vk (KeyPressInfo.fromNat lparam).scancode = some k) :
    (k = Modifiers.CAPSLOCK ∨ k = Modifiers.NUMLOCK → down = true →
      obs hwnd (handleKey api sys down vk lparam hwnd st) =
        .ok (some { info with modifiers := info.modifiers ^^^ k },
          st.queue ++ [(hwnd, WindowEvent.ModifiersChanged (info.modifiers ^^^ k))])) ∧
    (k = Modifiers.CAPSLOCK ∨ k = Modifiers.NUMLOCK → down = false →
      obs hwnd (handleKey api sys down vk lparam hwnd st) =
        .ok (some info,
          st.queue ++ [(hwnd, WindowEvent.ModifiersChanged info.modifiers)])) ∧
    (¬(k = Modifiers.CAPSLOCK ∨ k = Modifiers.NUMLOCK) → down = true →
      obs hwnd (handleKey api sys down vk lparam hwnd st) =
        .ok (some { info with modifiers := info.modifiers ||| k },
          st.queue ++ [(hwnd, WindowEvent.ModifiersChanged (info.modifiers ||| k))])) ∧
    (¬(k = Modifiers.CAPSLOCK ∨ k = Modifiers.NUMLOCK) → down = false →
      obs hwnd (handleKey api sys down vk lparam hwnd st) =
        .ok (some { info with modifiers := info.modifiers &&& Modifiers.mNot k },
          st.queue ++
            [(hwnd, WindowEvent.ModifiersChanged (info.modifiers &&& Modifiers.mNot k))])) ∧
    (info.modifiers ^^^ Modifiers.CAPSLOCK) ^^^ Modifiers.CAPSLOCK = info.modifiers ∧
    (info.modifiers &&& Modifiers.mNot Modifiers.LSHIFT) &&& Modifiers.LSHIFT = 0 := by
  obtain ⟨hkb, hms, htab, hret⟩ :=
    tryFromVk_side_facts api vk (KeyPressInfo.fromNat lparam).scancode k hk
  have hset : ∀ v : WindowInfo,
      (st.setInfo hwnd v).registry.lookup hwnd = some v :=
    fun v => SysState.lookup_setInfo st hwnd v info hl
  refine ⟨?_, ?_, ?_, ?_, ?_, ?_⟩
  · intro hlk hdown
    subst hdown
    simp [handleKey, htab, hret, hkb, hms, hk, hl, if_pos hlk, obs, Except.map,
      SysState.send, hb, hset, SysState.queue_setInfo]
  · intro hlk hdown
    subst hdown
    obtain ⟨a1, a2, a3, a4, a5, a6, a7, a8, a9, a10, a11, a12, a13, a14, a15,
      a16, a17, a18, a19, a20, a21, a22⟩ := info
    subst hb
    simp [handleKey, htab, hret, hkb, hms, hk, hl, if_pos hlk, obs, Except.map,
      SysState.send, hset, SysState.queue_setInfo]
  · intro hlk hdown
    subst hdown
    simp [handleKey, htab, hret, hkb, hms, hk, hl, hlk, obs, Except.map,
      SysState.send, hb, hset, SysState.queue_setInfo]
  · intro hlk hdown
    subst hdown
    simp [handleKey, htab, hret, hkb, hms, hk, hl, hlk, obs, Except.map,
      SysState.send, hb, hset, SysState.queue_setInfo]
  · simp [Nat.xor_assoc]
  · rw [Nat.and_assoc]
    have h8 : Modifiers.mNot Modifiers.LSHIFT &&& Modifiers.LSHIFT = 0 := by decide
    rw [h8, Nat.and_zero]

/-- Witness for C6: a left-Shift key-down (vk 0xA0) on the concrete sample
window. -/
theorem c6_modifier_semantics_witness :
    sampleState.registry.lookup 1 = some sampleInfo ∧
    sampleInfo.senderBound = true ∧
    tryFromVk api0 VK_LSHIFT (KeyPressInfo.fromNat 0).scancode =
      some Modifiers.LSHIFT ∧
    (¬(Modifiers.LSHIFT = Modifiers.CAPSLOCK ∨ Modifiers.LSHIFT = Modifiers.NUMLOCK) →
      true = true →
      obs 1 (handleKey api0 false true VK_LSHIFT 0 1 sampleState) =
        .ok (some { sampleInfo with modifiers := sampleInfo.modifiers ||| Modifiers.LSHIFT },
          sampleState.queue ++
            [(1, WindowEvent.ModifiersChanged
              (sampleInfo.modifiers ||| Modifiers.LSHIFT))])) :=
  ⟨rfl, rfl, rfl,
    (c6_modifier_semantics api0 false true VK_LSHIFT 0 1 Modifiers.LSHIFT
      sampleState sampleInfo rfl rfl rfl).2.2.1⟩

/-- C9: `next_event()` returns the oldest queued `(WindowId, WindowEvent)`
pair without pumping the native subsystem whenever the queue is non-empty at
poll time (the result does not depend on `pump` at all); it pumps exactly when
the queue was found empty; and `EventReceiver::recv` appends at the back, so
events are returned in the FIFO order they were appended. -/
theorem c9_next_event_fifo (q pump : List (Nat × WindowEvent))
    (e : Nat × WindowEvent) (h : q ≠ []) :
    EventLoop.nextEvent q pump = (q.head?, q.tail) ∧
    EventLoop.nextEvent [] pump = (pump.head?, pump.tail) ∧
    EventLoop.recv q e = q ++ [e] := by
  refine ⟨?_, ?_, rfl⟩
  · cases q with
    | nil => exact absurd rfl h
    | cons a t => simp [EventLoop.nextEvent]
  · simp [EventLoop.nextEvent]

/-- Witness for C9 at a concrete queue and pump result. -/
theorem c9_next_event_fifo_witness :
    ([((1 : Nat), WindowEvent.Created), (1, WindowEvent.CloseRequested)] :
        List (Nat × WindowEvent)) ≠ [] ∧
    (EventLoop.nextEvent [(1, WindowEvent.Created), (1, WindowEvent.CloseRequested)]
        [(2, WindowEvent.Destroyed)] =
      (some (1, WindowEvent.Created), [(1, WindowEvent.CloseRequested)]) ∧
    EventLoop.nextEvent [] [(2, WindowEvent.Destroyed)] =
      (some (2, WindowEvent.Destroyed), []) ∧
    EventLoop.recv [(1, WindowEvent.Created), (1, WindowEvent.CloseRequested)]
        (1, WindowEvent.Resized 10 20) =
      [(1, WindowEvent.Created), (1, WindowEvent.CloseRequested),
        (1, WindowEvent.Resized 10 20)]) :=
  ⟨by simp,
    c9_next_event_fifo [(1, WindowEvent.Created), (1, WindowEvent.CloseRequested)]
      [(2, WindowEvent.Destroyed)] (1, WindowEvent.Resized 10 20) (by simp)⟩

/-- C10: `WindowButtons::CLOSE` is the empty bitset (0x00), so every
`WindowButtons` value contains `CLOSE`; `enabled_buttons()` therefore never
reports the close button as disabled, and with the default `no_close == false`
`set_enabled_buttons` returns before its unimplemented close-suppression
`todo!()` branch for every `buttons` argument. -/
theorem c10_close_button_bit (st : SysState) (hwnd : Nat) (v : WindowInfo)
    (buttons : Nat) (hl : st.registry.lookup hwnd = some v)
    (hnc : v.noClose = false) :
    WindowButtons.bcontains buttons WindowButtons.CLOSE = true ∧
    (Window.enabledButtons hwnd st).map
        (fun b => WindowButtons.bcontains b WindowButtons.CLOSE) = .ok true ∧
    okE (Window.setEnabledButtons hwnd buttons st) = true := by
  have hclose : ∀ b : Nat, WindowButtons.bcontains b WindowButtons.CLOSE = true := by
    intro b
    simp [WindowButtons.bcontains, WindowButtons.CLOSE]
  refine ⟨hclose buttons, ?_, ?_⟩
  · simp [Window.enabledButtons, hl, Except.map, hclose]
  · simp only [Window.setEnabledButtons, hl]
    simp [hclose, hnc, okE]

/-- Witness for C10 at a concrete state and buttons argument. -/
theorem c10_close_button_bit_witness :
    sampleState.registry.lookup 1 = some sampleInfo ∧
    sampleInfo.noClose = false ∧
    (WindowButtons.bcontains 0 WindowButtons.CLOSE = true ∧
    (Window.enabledButtons 1 sampleState).map
        (fun b => WindowButtons.bcontains b WindowButtons.CLOSE) = .ok true ∧
    okE (Window.setEnabledButtons 1 0 sampleState) = true) :=
  ⟨rfl, rfl, c10_close_button_bit sampleState 1 sampleInfo 0 rfl rfl⟩

/-- C2, code evaluation: after the last handle is dropped (or after the
`WM_DESTROY` removal), the registry entry for window 1 is gone, and every
state query — `focused()`, `width()`, `title()` — evaluates to a Rust
`Option::unwrap` panic, not to an `UnknownWindow` error value (no such error
type exists in the code), and no default entry is recreated. -/
theorem c2_query_after_remove_panics :
    (Window.dropWindow 1 1 sampleState).registry = [] ∧
    Window.focused 1 (Window.dropWindow 1 1 sampleState) = .error RustPanic.unwrapNone ∧
    Window.width 1 (Window.dropWindow 1 1 sampleState) = .error RustPanic.unwrapNone ∧
    Window.title 1 (Window.dropWindow 1 1 sampleState) = .error RustPanic.unwrapNone ∧
    (Window.dropWindow 1 1 sampleState).registry.lookup 1 = none := by
  refine ⟨rfl, rfl, rfl, rfl, rfl⟩

/-- C4, code evaluation: `set_fullscreen(Exclusive)` on a window not already
recorded as Exclusive reaches the `todo!()` placeholder, i.e. it panics
instead of surfacing an explicit unsupported-operation error. -/
theorem c4_exclusive_todo_panics :
    Window.setFullscreen 1 FullscreenType.Exclusive sampleState =
      .error RustPanic.todoBranch ∧
    sampleInfo.fullscreen = FullscreenType.NotFullscreen := by
  exact ⟨rfl, rfl⟩

/-- C1, code evaluation: `set_fullscreen` never assigns the stored
`fullscreen` field, so after entering Borderless the registry still records
`NotFullscreen`; the subsequent `set_fullscreen(NotFullscreen)` therefore hits
the idempotence early-return and restores nothing: the native window keeps the
`WS_VISIBLE | WS_POPUP` style and the `(0, 0, screen)` geometry instead of the
snapshotted pre-entry style `WS_OVERLAPPEDWINDOW | WS_CLIPSIBLINGS` and
geometry `(100, 100, 800, 600)`.  (The snapshot itself is taken, as
`nonFullscreenStyle` shows — it is just never reapplied.) -/
theorem c1_restore_never_runs :
    ((Window.setFullscreen 1 FullscreenType.Borderless sampleState).bind
        (Window.setFullscreen 1 FullscreenType.NotFullscreen)).map
      (fun s => ((s.nativeOf 1).style, (s.nativeOf 1).x, (s.nativeOf 1).y,
        (s.nativeOf 1).width, (s.nativeOf 1).height,
        (s.registry.lookup 1).map (fun v => v.fullscreen),
        (s.registry.lookup 1).map (fun v => v.nonFullscreenStyle))) =
      .ok (WS_VISIBLE ||| WS_POPUP, 0, 0, 1920, 1080,
        some FullscreenType.NotFullscreen,
        some (WS_OVERLAPPEDWINDOW ||| WS_CLIPSIBLINGS)) ∧
    (sampleState.nativeOf 1).style = WS_OVERLAPPEDWINDOW ||| WS_CLIPSIBLINGS ∧
    (sampleState.nativeOf 1).x = 100 ∧ (sampleState.nativeOf 1).y = 100 ∧
    (sampleState.nativeOf 1).width = 800 ∧ (sampleState.nativeOf 1).height = 600 ∧
    ¬(WS_VISIBLE ||| WS_POPUP = WS_OVERLAPPEDWINDOW ||| WS_CLIPSIBLINGS) := by
  refine ⟨rfl, rfl, rfl, rfl, rfl, rfl, by decide⟩

/-- C3 counterexample: with the stored focused flag already `true`, a
`WM_ACTIVATE(WA_ACTIVE)` notification decodes to `true` — no value change —
yet a `Focused(true)` event is still emitted, so the only-on-change part of
the claim is false on the code. -/
theorem c3_focused_emitted_without_change :
    (focusedState.registry.lookup 1).map (fun v => v.focused) = some true ∧
    obs 1 (mainWndProc api0 1 (Msg.wmActivate WA_ACTIVE) focusedState) =
      .ok (some { sampleInfo with focused := true },
        [(1, WindowEvent.Focused true)]) := by
  exact ⟨rfl, rfl⟩

/-- C3 as amended: for every recognized activation code the decoder emits
`Focused(bool)` unconditionally (not only on a value change), and it updates
the stored flag before the event is observable, so a query during decode sees
the new value. -/
theorem c3_amended_focus_decode (api : OsApi) (st : SysState) (hwnd wparam : Nat)
    (info : WindowInfo) (hl : st.registry.lookup hwnd = some info)
    (hb : info.senderBound = true) :
    (wparam = WA_ACTIVE ∨ wparam = WA_CLICKACTIVE →
      obs hwnd (mainWndProc api hwnd (Msg.wmActivate wparam) st) =
        .ok (some { info with focused := true },
          st.queue ++ [(hwnd, WindowEvent.Focused true)])) ∧
    (wparam = WA_INACTIVE →
      obs hwnd (mainWndProc api hwnd (Msg.wmActivate wparam) st) =
        .ok (some { info with focused := false },
          st.queue ++ [(hwnd, WindowEvent.Focused false)])) := by
  have hset : ∀ v : WindowInfo,
      (st.setInfo hwnd v).registry.lookup hwnd = some v :=
    fun v => SysState.lookup_setInfo st hwnd v info hl
  constructor
  · rintro (rfl | rfl) <;>
      simp [mainWndProc, WA_ACTIVE, WA_CLICKACTIVE, WA_INACTIVE, hl, obs,
        Except.map, SysState.send, hb, hset, SysState.queue_setInfo]
  · rintro rfl
    simp [mainWndProc, WA_ACTIVE, WA_CLICKACTIVE, WA_INACTIVE, hl, obs,
      Except.map, SysState.send, hb, hset, SysState.queue_setInfo]

/-- Witness for the amended C3 at a concrete state and activation codes. -/
theorem c3_amended_focus_decode_witness :
    sampleState.registry.lookup 1 = some sampleInfo ∧
    sampleInfo.senderBound = true ∧
    ((WA_ACTIVE = WA_ACTIVE ∨ WA_ACTIVE = WA_CLICKACTIVE →
      obs 1 (mainWndProc api0 1 (Msg.wmActivate WA_ACTIVE) sampleState) =
        .ok (some { sampleInfo with focused := true },
          sampleState.queue ++ [(1, WindowEvent.Focused true)])) ∧
    (WA_ACTIVE = WA_INACTIVE →
      obs 1 (mainWndProc api0 1 (Msg.wmActivate WA_ACTIVE) sampleState) =
        .ok (some { sampleInfo with focused := false },
          sampleState.queue ++ [(1, WindowEvent.Focused false)]))) :=
  ⟨rfl, rfl, c3_amended_focus_decode api0 sampleState 1 WA_ACTIVE sampleInfo rfl rfl⟩

/-- C7: a `WM_SIZE` decoded as a transition into `Other` (SIZE_RESTORED)
updates the stored width/height and emits `Resized` with the new dimensions;
transitions into `Minimized`/`Maximized` update only `size_state` and emit
nothing. -/
theorem c7_wm_size_transitions (api : OsApi) (st : SysState) (hwnd lparam : Nat)
    (info : WindowInfo) (hl : st.registry.lookup hwnd = some info)
    (hb : info.senderBound = true) :
    obs hwnd (mainWndProc api hwnd (Msg.wmSize SIZE_RESTORED lparam) st) =
      .ok (some { info with
          width := ((lparam &&& 0xFFFF : Nat) : Int),
          height := (((lparam >>> 16) &&& 0xFFFF : Nat) : Int),
          sizeState := WindowSizeState.Other },
        st.queue ++
          [(hwnd, WindowEvent.Resized (lparam &&& 0xFFFF) ((lparam >>> 16) &&& 0xFFFF))]) ∧
    obs hwnd (mainWndProc api hwnd (Msg.wmSize SIZE_MINIMIZED lparam) st) =
      .ok (some { info with sizeState := WindowSizeState.Minimized }, st.queue) ∧
    obs hwnd (mainWndProc api hwnd (Msg.wmSize SIZE_MAXIMIZED lparam) st) =
      .ok (some { info with sizeState := WindowSizeState.Maximized }, st.queue) := by
  have hset : ∀ v : WindowInfo,
      (st.setInfo hwnd v).registry.lookup hwnd = some v :=
    fun v => SysState.lookup_setInfo st hwnd v info hl
  refine ⟨?_, ?_, ?_⟩ <;>
    simp [mainWndProc, SIZE_RESTORED, SIZE_MINIMIZED, SIZE_MAXIMIZED,
      SIZE_MAXSHOW, SIZE_MAXHIDE, hl, obs, Except.map, SysState.send, hb, hset,
      SysState.queue_setInfo]

/-- Witness for C7 at a concrete state and lparam 0x00500040
(width 64, height 80). -/
theorem c7_wm_size_transitions_witness :
    sampleState.registry.lookup 1 = some sampleInfo ∧
    sampleInfo.senderBound = true ∧
    (obs 1 (mainWndProc api0 1 (Msg.wmSize SIZE_RESTORED 0x00500040) sampleState) =
      .ok (some { sampleInfo with
          width := ((0x00500040 &&& 0xFFFF : Nat) : Int),
          height := (((0x00500040 >>> 16) &&& 0xFFFF : Nat) : Int),
          sizeState := WindowSizeState.Other },
        sampleState.queue ++
          [(1, WindowEvent.Resized (0x00500040 &&& 0xFFFF)
            ((0x00500040 >>> 16) &&& 0xFFFF))]) ∧
    obs 1 (mainWndProc api0 1 (Msg.wmSize SIZE_MINIMIZED 0x00500040) sampleState) =
      .ok (some { sampleInfo with sizeState := WindowSizeState.Minimized },
        sampleState.queue) ∧
    obs 1 (mainWndProc api0 1 (Msg.wmSize SIZE_MAXIMIZED 0x00500040) sampleState) =
      .ok (some { sampleInfo with sizeState := WindowSizeState.Maximized },
        sampleState.queue)) :=
  ⟨rfl, rfl, c7_wm_size_transitions api0 sampleState 1 0x00500040 sampleInfo rfl rfl⟩

/-- C8 counterexample: on a window whose `size_state` is `Minimized`,
`normalize()` is a no-op — the state is returned unchanged and the (empty)
native-call trace stays empty — contradicting the claim that a Minimized
window is restored via the native normal-show. -/
theorem c8_normalize_noop_when_minimized :
    (minimizedState.registry.lookup 1).map (fun v => v.sizeState) =
      some WindowSizeState.Minimized ∧
    Window.normalize 1 minimizedState = .ok minimizedState ∧
    minimizedState.trace = [] := by
  exact ⟨rfl, rfl, rfl⟩

/-- C8 as amended: `minimize()` is a no-op when the window is already
Minimized and otherwise issues the native minimize; `normalize()` is a no-op
on a Minimized window, and on any other window (including Maximized) issues a
native `SetWindowPos` repositioning to the stored geometry. -/
theorem c8_amended_minimize_normalize (st : SysState) (hwnd : Nat)
    (v : WindowInfo) (hl : st.registry.lookup hwnd = some v) :
    (v.sizeState = WindowSizeState.Minimized →
      Window.minimizeWindow hwnd st = .ok st) ∧
    (v.sizeState ≠ WindowSizeState.Minimized →
      Window.minimizeWindow hwnd st =
        .ok (st.addTrace (NativeCall.showWindow SW_MINIMIZE))) ∧
    (v.sizeState = WindowSizeState.Minimized →
      Window.normalize hwnd st = .ok st) ∧
    (v.sizeState ≠ WindowSizeState.Minimized →
      Window.normalize hwnd st =
        .ok (st.setWindowPos hwnd v.x v.y v.width v.height)) := by
  refine ⟨fun h => ?_, fun h => ?_, fun h => ?_, fun h => ?_⟩ <;>
    simp [Window.minimizeWindow, Window.normalize, hl, h]

/-- Witness for the amended C8 at a concrete minimized window. -/
theorem c8_amended_minimize_normalize_witness :
    minimizedState.registry.lookup 1 =
      some { sampleInfo with sizeState := WindowSizeState.Minimized } ∧
    (({ sampleInfo with sizeState := WindowSizeState.Minimized } :
        WindowInfo).sizeState = WindowSizeState.Minimized →
      Window.minimizeWindow 1 minimizedState = .ok minimizedState) ∧
    (({ sampleInfo with sizeState := WindowSizeState.Minimized } :
        WindowInfo).sizeState ≠ WindowSizeState.Minimized →
      Window.minimizeWindow 1 minimizedState =
        .ok (minimizedState.addTrace (NativeCall.showWindow SW_MINIMIZE))) ∧
    (({ sampleInfo with sizeState := WindowSizeState.Minimized } :
        WindowInfo).sizeState = WindowSizeState.Minimized →
      Window.normalize 1 minimizedState = .ok minimizedState) ∧
    (({ sampleInfo with sizeState := WindowSizeState.Minimized } :
        WindowInfo).sizeState ≠ WindowSizeState.Minimized →
      Window.normalize 1 minimizedState =
        .ok (minimizedState.setWindowPos 1 100 100 800 600)) :=
  ⟨rfl,
    (c8_amended_minimize_normalize minimizedState 1
      { sampleInfo with sizeState := WindowSizeState.Minimized } rfl).1,
    (c8_amended_minimize_normalize minimizedState 1
      { sampleInfo with sizeState := WindowSizeState.Minimized } rfl).2.1,
    (c8_amended_minimize_normalize minimizedState 1
      { sampleInfo with sizeState := WindowSizeState.Minimized } rfl).2.2.1,
    (c8_amended_minimize_normalize minimizedState 1
      { sampleInfo with sizeState := WindowSizeState.Minimized } rfl).2.2.2⟩

/-- C5, code evaluation: the decoder is not total — a `WM_DISPLAYCHANGE`
notification and a `WM_SIZE` notification with the legitimate-but-unhandled
codes `SIZE_MAXSHOW`/`SIZE_MAXHIDE` all reach `todo!()` and panic instead of
being dropped, while a `WM_SIZE` with an unknown code (≥ 5) and a
`WM_ACTIVATE` with an unknown code are indeed ignored. -/
theorem c5_decoder_panics_on_unhandled_codes :
    mainWndProc api0 1 Msg.wmDisplayChange sampleState = .error RustPanic.todoBranch ∧
    mainWndProc api0 1 (Msg.wmSize SIZE_MAXSHOW 0) sampleState = .error RustPanic.todoBranch ∧
    mainWndProc api0 1 (Msg.wmSize SIZE_MAXHIDE 0) sampleState = .error RustPanic.todoBranch ∧
    mainWndProc api0 1 (Msg.wmSize 7 0) sampleState = .ok sampleState ∧
    mainWndProc api0 1 (Msg.wmActivate 5) sampleState = .ok sampleState := by
  exact ⟨rfl, rfl, rfl, rfl, rfl⟩

end Nwin




